import Mathlib

/-!
Verification of the x_violet agent core: provider-fallback orchestration
(`xviolet/llm/fallback_manager.py`, `xviolet/vector/fallback_manager.py`),
the action dispatcher and interaction ledger (`xviolet/actions.py`,
`xviolet/storage.py`, `xviolet/media_tracker.py`), the content scheduler
(`xviolet/scheduler.py`, mirrored inline in `xviolet/agent.py`), and the
agent control loop (`xviolet/agent.py`).

The Python code is shallowly embedded: stateful methods become explicit
state-passing functions, external collaborators (LLM SDKs, vector stores,
the social client, the filesystem, `random`) become oracle parameters, and
fallible calls return `Except`/outcome types.  Exceptions raised by a
backend and caught by a manager are modelled as an explicit `raises`
outcome; an exception that escapes to the caller is modelled as
`Except.error`.
-/

/-- Outcome of one backend call as observed by a fallback manager:
the call raised an exception (caught by the manager), returned the Python
value `None`, or returned a value `v` (possibly empty, e.g. `""` or `[]`). -/
inductive Outcome (α : Type) where
  | raises
  | retNone
  | ret (v : α)
deriving DecidableEq

/-- Outcome of a call that returns a bool or raises
(`VectorStore.delete_documents`). -/
inductive BoolOutcome where
  | raises
  | ret (b : Bool)
deriving DecidableEq

/-! ## LLM fallback manager (`xviolet/llm/fallback_manager.py`)

A constructed provider instance; its three capability methods are oracles
from the call's main input to an outcome (the remaining keyword arguments
of the Python methods do not influence the manager's control flow). -/

structure LLMInstance where
  gen : String → Outcome String
  img : String → Outcome String
  vid : String → Outcome String

/-- One entry of `self.providers` (line 23: name, instance, type; the type
string plays no further role in the llm manager's operations). -/
structure LLMProvider where
  name : String
  inst : LLMInstance

/-- One element of `llm_provider_configs` (lines 25-29).  `ctor` is the
result of `ProviderClass(provider_specific_config)`: `some inst` when the
constructor succeeds, `none` when it raises (lines 41-46). -/
structure LLMCfgItem where
  ptype : Option String
  cname : Option String
  enabled : Bool
  ctor : Option LLMInstance

/-- `_get_llm_provider_class` (lines 54-67) finds a class exactly for these
type names. -/
def llm_known_type (t : String) : Bool :=
  t == "gemini" || t == "litellm" || t == "local_gguf"

/-- `LLMFallbackManager.__init__` (lines 17-52): skip disabled entries,
entries with a missing or unknown `type`, and entries whose constructor
raises; keep the rest in configuration order. -/
def llm_init (cfgs : List LLMCfgItem) : List LLMProvider :=
  cfgs.filterMap fun item =>
    if !item.enabled then none
    else
      match item.ptype with
      | none => none
      | some t =>
        if llm_known_type t then
          match item.ctor with
          | some inst => some { name := item.cname.getD t, inst := inst }
          | none => none
        else none

/-- The provider name an entry would get (`config.get('name', provider_type)`,
line 27), used to compare construction order with configuration order. -/
def llm_cfg_name (item : LLMCfgItem) : String :=
  item.cname.getD (item.ptype.getD "")

/-- `LLMFallbackManager.is_enabled` (lines 141-144): `bool(self.providers)`. -/
def llm_is_enabled (providers : List LLMProvider) : Bool :=
  !providers.isEmpty

/-- Loop body of `generate_text` (lines 75-91).  Returns the manager's
result together with the names of the providers whose `generate_text` was
invoked, in order.  A `ret v` outcome is returned immediately
(`if result is not None: return result`, lines 81-83); `retNone` and
`raises` are logged and the next provider is tried; an exhausted list
yields `None` (line 91). -/
def llm_generate_text_loop (providers : List LLMProvider) (prompt : String) :
    Option String × List String :=
  match providers with
  | [] => (none, [])
  | p :: rest =>
    match p.inst.gen prompt with
    | .ret v => (some v, [p.name])
    | .retNone =>
      let r := llm_generate_text_loop rest prompt
      (r.1, p.name :: r.2)
    | .raises =>
      let r := llm_generate_text_loop rest prompt
      (r.1, p.name :: r.2)

/-- `LLMFallbackManager.generate_text` (lines 69-91): an empty provider
list short-circuits to `None` (lines 71-73), otherwise the fallback loop
runs. -/
def llm_generate_text (providers : List LLMProvider) (prompt : String) :
    Option String × List String :=
  if providers.isEmpty then (none, [])
  else llm_generate_text_loop providers prompt

/-- Loop body of `analyze_image` (lines 99-115), same fallback shape as
`generate_text`. -/
def llm_analyze_image_loop (providers : List LLMProvider) (image_path : String) :
    Option String × List String :=
  match providers with
  | [] => (none, [])
  | p :: rest =>
    match p.inst.img image_path with
    | .ret v => (some v, [p.name])
    | .retNone =>
      let r := llm_analyze_image_loop rest image_path
      (r.1, p.name :: r.2)
    | .raises =>
      let r := llm_analyze_image_loop rest image_path
      (r.1, p.name :: r.2)

/-- `LLMFallbackManager.analyze_image` (lines 93-115). -/
def llm_analyze_image (providers : List LLMProvider) (image_path : String) :
    Option String × List String :=
  if providers.isEmpty then (none, [])
  else llm_analyze_image_loop providers image_path

/-- Loop body of `analyze_video` (lines 123-139), same fallback shape. -/
def llm_analyze_video_loop (providers : List LLMProvider) (video_path : String) :
    Option String × List String :=
  match providers with
  | [] => (none, [])
  | p :: rest =>
    match p.inst.vid video_path with
    | .ret v => (some v, [p.name])
    | .retNone =>
      let r := llm_analyze_video_loop rest video_path
      (r.1, p.name :: r.2)
    | .raises =>
      let r := llm_analyze_video_loop rest video_path
      (r.1, p.name :: r.2)

/-- `LLMFallbackManager.analyze_video` (lines 117-139). -/
def llm_analyze_video (providers : List LLMProvider) (video_path : String) :
    Option String × List String :=
  if providers.isEmpty then (none, [])
  else llm_analyze_video_loop providers video_path

example :
    llm_generate_text
      [{ name := "A", inst := ⟨fun _ => .raises, fun _ => .raises, fun _ => .raises⟩ },
       { name := "B", inst := ⟨fun _ => .retNone, fun _ => .retNone, fun _ => .retNone⟩ },
       { name := "C", inst := ⟨fun _ => .ret "V", fun _ => .ret "V", fun _ => .ret "V"⟩ },
       { name := "D", inst := ⟨fun _ => .ret "W", fun _ => .ret "W", fun _ => .ret "W"⟩ }]
      "p" = (some "V", ["A", "B", "C"]) := by
  decide

/-! ## Vector-store fallback manager (`xviolet/vector/fallback_manager.py`) -/

/-- A document as the vector surface handles it (the Python dicts are
opaque to the manager; it only passes them through). -/
structure VDoc where
  docId : String
  text : String
deriving DecidableEq

/-- The query handed to `search`: either a raw text query (the agent and
scheduler always pass text, lines agent.py:146/240, scheduler.py:59) or a
precomputed embedding vector (float values are opaque to the control flow
and abstracted to integers). -/
inductive VQuery where
  | qtext (s : String)
  | qemb (e : List Int)
deriving DecidableEq

/-- `isinstance(query_embedding, str)` (lines 94/102). -/
def VQuery.isStr : VQuery → Bool
  | .qtext _ => true
  | .qemb _ => false

/-- A constructed vector-store instance; each capability method is an
oracle from its main input to an outcome. -/
structure VStoreInst where
  add : List VDoc → Option (List (List Int)) → Outcome (List String)
  search : VQuery → Outcome (List VDoc)
  get : String → Outcome VDoc
  delete : List String → BoolOutcome

/-- One entry of `self.stores` (line 20: name, instance, type). -/
structure VStore where
  name : String
  vtype : String
  inst : VStoreInst

/-- Loop body of `add_documents` (lines 56-77): a store that returns a
list (even `[]`, "an empty list might be a valid success", line 65) wins
immediately; explicit `None` or an exception falls through; all failing
yields `[]` (line 77).  The second component records, in order, the names
of the stores whose `add_documents` was invoked. -/
def vsm_add_documents (stores : List VStore) (docs : List VDoc)
    (embeddings : Option (List (List Int))) : List String × List String :=
  match stores with
  | [] => ([], [])
  | s :: rest =>
    match s.inst.add docs embeddings with
    | .ret ids => (ids, [s.name])
    | .retNone =>
      let r := vsm_add_documents rest docs embeddings
      (r.1, s.name :: r.2)
    | .raises =>
      let r := vsm_add_documents rest docs embeddings
      (r.1, s.name :: r.2)

/-- Whether `search` skips a store without invoking it: a store declared
`'local'` expects a text query, so an embedding query makes the loop
record a `TypeError` as `last_error` and `continue` (lines 90-100). -/
def vstore_skipped (s : VStore) (q : VQuery) : Bool :=
  s.vtype == "local" && !q.isStr

/-- Loop body of `search` (lines 79-124).  A `'local'` store is called
with the query as text when the query is a string and skipped otherwise;
any other store is called with the query as given (text is passed through
with a warning, lines 101-111).  A store returning a list — `[]` included,
"empty list is a valid success", line 113 — wins immediately; `None` or an
exception falls through; all failing yields `[]` (line 124). -/
def vsm_search (stores : List VStore) (q : VQuery) : List VDoc × List String :=
  match stores with
  | [] => ([], [])
  | s :: rest =>
    if vstore_skipped s q then vsm_search rest q
    else
      match s.inst.search q with
      | .ret docs => (docs, [s.name])
      | .retNone =>
        let r := vsm_search rest q
        (r.1, s.name :: r.2)
      | .raises =>
        let r := vsm_search rest q
        (r.1, s.name :: r.2)

/-- Loop body of `get_document_by_id` (lines 126-145): a non-`None`
document wins; `None` means "not found here", try the next store; all
failing or not found yields `None`. -/
def vsm_get_document_by_id (stores : List VStore) (documentId : String) :
    Option VDoc × List String :=
  match stores with
  | [] => (none, [])
  | s :: rest =>
    match s.inst.get documentId with
    | .ret d => (some d, [s.name])
    | .retNone =>
      let r := vsm_get_document_by_id rest documentId
      (r.1, s.name :: r.2)
    | .raises =>
      let r := vsm_get_document_by_id rest documentId
      (r.1, s.name :: r.2)

/-- Loop body of `delete_documents` (lines 147-171): a store returning
`True` wins; `False` or an exception falls through; all failing yields
`False` (line 171). -/
def vsm_delete_documents (stores : List VStore) (ids : List String) :
    Bool × List String :=
  match stores with
  | [] => (false, [])
  | s :: rest =>
    match s.inst.delete ids with
    | .ret true => (true, [s.name])
    | .ret false =>
      let r := vsm_delete_documents rest ids
      (r.1, s.name :: r.2)
    | .raises =>
      let r := vsm_delete_documents rest ids
      (r.1, s.name :: r.2)

/-! ### Construction of `VectorStoreFallbackManager`

The class body defines `__init__` twice: the list-based initializer at
line 11 and the ABC-compatibility stub at line 174 whose body is `pass`.
Python executes a class body top to bottom and a later `def` of the same
name rebinds it, so the stub is the effective constructor. -/

/-- One element of `store_configs` as consumed by the line-11 initializer
(lines 22-29).  `ctor` is the result of `store_class(store_config_params)`:
`none` when the constructor raises (lines 33-38). -/
structure StoreCfgItem where
  stype : Option String
  cname : Option String
  hasCfg : Bool
  ctor : Option VStoreInst

/-- `_get_store_class` (lines 46-54) finds a class exactly for `'local'`
and `'remote'`. -/
def vsfm_known_type (t : String) : Bool :=
  t == "local" || t == "remote"

/-- The construction loop of the line-11 initializer (lines 22-44): skip
entries with a missing type or missing config, unknown types, and entries
whose constructor raises; keep the rest in configuration order. -/
def vsfm_build_stores (cfgs : List StoreCfgItem) : List VStore :=
  cfgs.filterMap fun item =>
    match item.stype with
    | none => none
    | some t =>
      if !item.hasCfg then none
      else if vsfm_known_type t then
        match item.ctor with
        | some inst => some { name := item.cname.getD t, vtype := t, inst := inst }
        | none => none
      else none

/-- The two `def __init__` occurrences in the class body, in textual
order. -/
inductive VSFMInit where
  | listBased
  | abcStub
deriving DecidableEq

/-- The class body binds `__init__` at line 11 and again at line 174. -/
def vsfm_class_init_defs : List VSFMInit := [.listBased, .abcStub]

/-- Python class-body semantics: of several `def`s of the same name, the
last one is the binding the class keeps. -/
def python_effective_def (defs : List VSFMInit) : Option VSFMInit :=
  defs.getLast?

/-- The argument the constructor receives.  The line-11 initializer
expects a list of store configurations; `XVioletAgent.__init__`
(agent.py lines 59-60) actually passes a single dict
`manager_init_config`, modelled by its key list. -/
inductive StoreArg where
  | configList (cfgs : List StoreCfgItem)
  | managerDict (keys : List String)

/-- The constructed manager object.  `stores?` is the `stores` attribute:
`none` means the attribute was never assigned, so reading `self.stores`
raises `AttributeError`. -/
structure VSFMObj where
  stores? : Option (List VStore)

/-- Python errors that escape a method to its caller. -/
inductive PyErr where
  | attributeError (attr : String)
deriving DecidableEq

/-- The line-11 initializer, were it effective: on a configuration list it
builds `self.stores`; on the dict the agent passes, `for config_item in
store_configs` iterates the keys (strings) and `config_item.get('type')`
would raise `AttributeError` for any key. -/
def vsfm_init_list_based : StoreArg → Except PyErr VSFMObj
  | .configList cfgs => .ok { stores? := some (vsfm_build_stores cfgs) }
  | .managerDict [] => .ok { stores? := some [] }
  | .managerDict (_ :: _) => .error (.attributeError "get")

/-- The line-174 initializer: its body is `pass`, so no attribute is
assigned and construction always succeeds with `stores` unset. -/
def vsfm_init_abc_stub (_arg : StoreArg) : VSFMObj :=
  { stores? := none }

/-- `VectorStoreFallbackManager(...)`: run whichever `__init__` the class
body effectively bound. -/
def vsfm_new (arg : StoreArg) : Except PyErr VSFMObj :=
  match python_effective_def vsfm_class_init_defs with
  | some .abcStub => .ok (vsfm_init_abc_stub arg)
  | some .listBased => vsfm_init_list_based arg
  | none => .ok { stores? := none }

/-- Method call `add_documents` on a constructed object: `for store_wrapper
in self.stores` (line 58) raises `AttributeError` when the attribute was
never assigned. -/
def vsfm_add_documents_method (o : VSFMObj) (docs : List VDoc)
    (embeddings : Option (List (List Int))) : Except PyErr (List String) :=
  match o.stores? with
  | none => .error (.attributeError "stores")
  | some stores => .ok (vsm_add_documents stores docs embeddings).1

/-- Method call `search` on a constructed object (line 81 reads
`self.stores`). -/
def vsfm_search_method (o : VSFMObj) (q : VQuery) : Except PyErr (List VDoc) :=
  match o.stores? with
  | none => .error (.attributeError "stores")
  | some stores => .ok (vsm_search stores q).1

/-- Method call `get_document_by_id` on a constructed object (line 128
reads `self.stores`). -/
def vsfm_get_document_by_id_method (o : VSFMObj) (documentId : String) :
    Except PyErr (Option VDoc) :=
  match o.stores? with
  | none => .error (.attributeError "stores")
  | some stores => .ok (vsm_get_document_by_id stores documentId).1

/-- Method call `delete_documents` on a constructed object (line 151 reads
`self.stores`). -/
def vsfm_delete_documents_method (o : VSFMObj) (ids : List String) :
    Except PyErr Bool :=
  match o.stores? with
  | none => .error (.attributeError "stores")
  | some stores => .ok (vsm_delete_documents stores ids).1

/-! ## Interaction store (`xviolet/storage.py`)

The store's in-memory state is the `interacted_tweets` list.  The write
path (`_save`, lines 34-36) has no exception handler, so a failing
`open`/`json.dump` propagates; the oracle `write_ok` says whether the
write succeeds. -/

/-- `InteractionStore.has_interacted` (lines 26-27). -/
def has_interacted (interacted : List String) (tweet_id : String) : Bool :=
  decide (tweet_id ∈ interacted)

/-- `InteractionStore.add_interaction` (lines 29-32): a present id is a
no-op (no write); otherwise the id is appended and `_save` runs — a
failing write raises out of the call (`Except.error`). -/
def add_interaction (interacted : List String) (tweet_id : String)
    (write_ok : Bool) : Except String (List String) :=
  if has_interacted interacted tweet_id then .ok interacted
  else if write_ok then .ok (interacted ++ [tweet_id])
  else .error "IOError"

/-! ## Media tracker (`xviolet/media_tracker.py`) -/

/-- `is_media_used` (lines 56-60): membership in the in-memory set. -/
def is_media_used (filename : String) (used_media_set : List String) : Bool :=
  decide (filename ∈ used_media_set)

/-- `mark_media_as_used` (lines 41-54); `log` is the current contents of
`data/used_media.txt`, `dir_ok` whether `_ensure_data_directory`
succeeded, `write_ok` whether the append write succeeds.  The function
always returns normally: a failed directory check logs and returns (line
45-47), and an `IOError` from the write is caught and logged (lines
53-54), so the caller never sees an exception and gets no success
signal. -/
def mark_media_as_used (filename : String) (log : List String)
    (dir_ok : Bool) (write_ok : Bool) : Except String (List String) :=
  if !dir_ok then .ok log
  else if write_ok then .ok (log ++ [filename])
  else .ok log

/-! ## Action manager (`xviolet/actions.py`)

External calls on the Twitter client are recorded as values; each public
method returns the updated ledger, the external calls it performed, and
its boolean result.  Ledger persistence is assumed to succeed here (its
failure mode is covered by `add_interaction` above). -/

/-- `SUPPORTED_ACTIONS` (lines 14-19). -/
def SUPPORTED_ACTIONS : List String :=
  ["QUOTE_TWEET", "REPLY", "LIKE", "RETWEET"]

/-- A side-effecting call on the Twitter client. -/
inductive ExtCall where
  | quote (tweet_id : String) (text : Option String) (media : Option String)
  | reply (tweet_id : String) (text : Option String)
  | like (tweet_id : String)
  | retweet (tweet_id : String)
deriving DecidableEq

/-- Result of an `ActionManager` method: ledger afterwards, external calls
performed, and the returned bool. -/
structure DispatchResult where
  store : List String
  calls : List ExtCall
  ok : Bool
deriving DecidableEq

/-- `ActionManager.should_interact` (lines 26-33). -/
def should_interact (interacted : List String) (tweet_id : String)
    (conversation : Bool) : Bool :=
  if conversation then true
  else !has_interacted interacted tweet_id

/-- `ActionManager.record_interaction` (lines 35-36), with the write
succeeding. -/
def record_interaction (interacted : List String) (tweet_id : String) :
    List String :=
  (add_interaction interacted tweet_id true).toOption.getD interacted

/-- `ActionManager.quote_tweet` (lines 38-44). -/
def am_quote_tweet (interacted : List String) (tweet_id : String)
    (text : Option String) (media_path : Option String) : DispatchResult :=
  if !should_interact interacted tweet_id false then
    { store := interacted, calls := [], ok := false }
  else
    { store := record_interaction interacted tweet_id,
      calls := [.quote tweet_id text media_path], ok := true }

/-- `ActionManager.reply` (lines 46-52); only this method forwards the
`conversation` flag to `should_interact`. -/
def am_reply (interacted : List String) (tweet_id : String)
    (text : Option String) (conversation : Bool) : DispatchResult :=
  if !should_interact interacted tweet_id conversation then
    { store := interacted, calls := [], ok := false }
  else
    { store := record_interaction interacted tweet_id,
      calls := [.reply tweet_id text], ok := true }

/-- `ActionManager.like` (lines 54-60). -/
def am_like (interacted : List String) (tweet_id : String) : DispatchResult :=
  if !should_interact interacted tweet_id false then
    { store := interacted, calls := [], ok := false }
  else
    { store := record_interaction interacted tweet_id,
      calls := [.like tweet_id], ok := true }

/-- `ActionManager.retweet` (lines 62-68). -/
def am_retweet (interacted : List String) (tweet_id : String) : DispatchResult :=
  if !should_interact interacted tweet_id false then
    { store := interacted, calls := [], ok := false }
  else
    { store := record_interaction interacted tweet_id,
      calls := [.retweet tweet_id], ok := true }

/-- `ActionManager.dispatch` (lines 70-81).  Note that only the `REPLY`
branch passes `conversation` on; `QUOTE_TWEET`, `LIKE` and `RETWEET` call
their methods without it, so those consult the ledger with
`conversation=False`. -/
def dispatch (interacted : List String) (action : String) (tweet_id : String)
    (text : Option String) (media_path : Option String)
    (conversation : Bool) : DispatchResult :=
  if action == "QUOTE_TWEET" then am_quote_tweet interacted tweet_id text media_path
  else if action == "REPLY" then am_reply interacted tweet_id text conversation
  else if action == "LIKE" then am_like interacted tweet_id
  else if action == "RETWEET" then am_retweet interacted tweet_id
  else { store := interacted, calls := [], ok := false }

/-! ## Content scheduler (`xviolet/scheduler.py`, `run_schedule_cycle`)

The same slot loop appears inline in `XVioletAgent.run` (agent.py lines
257-355) with identical counter, media-selection and used-media logic.
The context-acquisition step (scheduler.py lines 45-75) only changes the
prompt strings handed to the LLM oracles, so it is absorbed into the
per-slot oracles. -/

/-- A file of the media directory: its path and `os.path.basename(path)`. -/
structure MediaFile where
  path : String
  base : String
deriving DecidableEq

/-- The configuration fields the slot loop reads. -/
structure SchedConfig where
  max_scheduled_tweets_total : Nat
  max_scheduled_media_tweets : Nat
  media_tweet_probability : Rat
  media_dir_ok : Bool

/-- What one LLM-manager call yields as the scheduler sees it: an
exception (caught at scheduler.py lines 117-119 / 138-140), `None`, or a
string (possibly `""`). -/
inductive GenOutcome where
  | raises
  | noText
  | text (s : String)
deriving DecidableEq

/-- Environment of one slot: the `random.random()` draw, the
`random.choice` index over the unused-file list, the outcome of
`llm.analyze_image` per path, the outcome of `llm.generate_text`, and
whether `twitter.schedule_tweet_from_agent` returns without raising. -/
structure SlotEnv where
  draw : Rat
  choiceIdx : Nat
  analyze_image : String → GenOutcome
  generate_text : GenOutcome
  schedule_ok : Bool

/-- Environment of one cycle: `available_media_files` (the image-suffix
files listed in the media directory, lines 93-96) and the per-slot
environment. -/
structure SchedEnv where
  available_media_files : List MediaFile
  slot : Nat → SlotEnv

/-- State carried through one cycle, extended with the trace fields
`scheduled_posts` (each successful `schedule_tweet_from_agent` call) and
`selected_media` (each file chosen by `random.choice`, line 104). -/
structure CycleState where
  scheduled_in_this_cycle : Nat
  media_scheduled_this_cycle : Nat
  used_media_set : List String
  scheduled_posts : List (String × Option String)
  selected_media : List MediaFile
deriving DecidableEq

/-- Python truthiness of `text_content` (`if text_content:`, line 142):
`None` and `""` are falsy. -/
def truthy_text : Option String → Bool
  | none => false
  | some s => !(s == "")

/-- One iteration of the slot loop (scheduler.py lines 83-163).  The
media branch is taken when the media counter is below its cap and the
draw falls under `media_tweet_probability` (lines 87-88); a missing media
directory or no unused file resets `is_media_attempt` and falls through
to the text-only attempt (lines 120-125, 127); a selected file whose
caption generation fails skips the slot without a text fallback (lines
115-119, 160-161).  A successful `schedule_tweet_from_agent` increments
the total counter, and when media was attached also marks the file used
(log write and in-memory set, lines 152-157) and increments the media
counter; an exception from scheduling is caught at line 158 and records
nothing. -/
def run_slot (cfg : SchedConfig) (files : List MediaFile) (se : SlotEnv)
    (st : CycleState) : CycleState :=
  let mediaSel : Option (MediaFile × GenOutcome) :=
    if st.media_scheduled_this_cycle < cfg.max_scheduled_media_tweets ∧
        se.draw < cfg.media_tweet_probability then
      if cfg.media_dir_ok then
        let unused := files.filter fun f => !is_media_used f.base st.used_media_set
        match unused with
        | [] => none
        | f0 :: _ =>
          let f := unused.getD (se.choiceIdx % unused.length) f0
          some (f, se.analyze_image f.path)
      else none
    else none
  match mediaSel with
  | some (f, out) =>
    let st1 := { st with selected_media := st.selected_media ++ [f] }
    let text_content : Option String :=
      match out with
      | .text s => some s
      | .noText => none
      | .raises => none
    if truthy_text text_content then
      if se.schedule_ok then
        { st1 with
          scheduled_posts := st1.scheduled_posts ++ [(text_content.getD "", some f.path)],
          scheduled_in_this_cycle := st1.scheduled_in_this_cycle + 1,
          used_media_set := st1.used_media_set ++ [f.base],
          media_scheduled_this_cycle := st1.media_scheduled_this_cycle + 1 }
      else st1
    else st1
  | none =>
    let text_content : Option String :=
      match se.generate_text with
      | .text s => some s
      | .noText => none
      | .raises => none
    if truthy_text text_content then
      if se.schedule_ok then
        { st with
          scheduled_posts := st.scheduled_posts ++ [(text_content.getD "", none)],
          scheduled_in_this_cycle := st.scheduled_in_this_cycle + 1 }
      else st
    else st

/-- The slot loop `for _ in range(max_scheduled_tweets_total)` with its
early break `if scheduled_in_this_cycle >= max_scheduled_tweets_total`
(lines 78-81); `fuel` is the number of remaining range iterations and
`idx` the current slot index. -/
def run_slots (cfg : SchedConfig) (env : SchedEnv) :
    Nat → Nat → CycleState → CycleState
  | 0, _, st => st
  | fuel + 1, idx, st =>
    if cfg.max_scheduled_tweets_total ≤ st.scheduled_in_this_cycle then st
    else
      run_slots cfg env fuel (idx + 1)
        (run_slot cfg env.available_media_files (env.slot idx) st)

/-- The same loop, recording the state at the start of every iteration
and the final state, so invariants "at every point of the cycle" can be
stated. -/
def run_slots_trace (cfg : SchedConfig) (env : SchedEnv) :
    Nat → Nat → CycleState → List CycleState
  | 0, _, st => [st]
  | fuel + 1, idx, st =>
    if cfg.max_scheduled_tweets_total ≤ st.scheduled_in_this_cycle then [st]
    else
      st :: run_slots_trace cfg env fuel (idx + 1)
        (run_slot cfg env.available_media_files (env.slot idx) st)

/-- `Scheduler.run_schedule_cycle` (lines 40-167): both per-cycle
counters start at zero (lines 42-43) and the slot loop runs. -/
def run_schedule_cycle (cfg : SchedConfig) (env : SchedEnv)
    (used0 : List String) : CycleState :=
  run_slots cfg env cfg.max_scheduled_tweets_total 0
    { scheduled_in_this_cycle := 0, media_scheduled_this_cycle := 0,
      used_media_set := used0, scheduled_posts := [], selected_media := [] }

/-- The states a cycle passes through, starting from the zeroed
counters. -/
def cycle_states (cfg : SchedConfig) (env : SchedEnv)
    (used0 : List String) : List CycleState :=
  run_slots_trace cfg env cfg.max_scheduled_tweets_total 0
    { scheduled_in_this_cycle := 0, media_scheduled_this_cycle := 0,
      used_media_set := used0, scheduled_posts := [], selected_media := [] }

/-! ## Agent control loop (`xviolet/agent.py`, `XVioletAgent.run`) -/

/-- The `while True` loop of `run` (lines 208-361) with a cycle cap:
every iteration first increments `cycles` and breaks when
`cycles >= max_cycles` (lines 211-214), before any task runs.  The
returned list records, in order, the `cycles` values of the iterations
that got past the cap check to the task section; `fuel` bounds the
recursion and any `fuel ≥ max_cycles` gives the same result, which is how
termination of the Python loop is expressed. -/
def agent_run_capped_go (max_cycles : Nat) : Nat → Nat → List Nat → List Nat
  | 0, _, acc => acc
  | fuel + 1, cycles, acc =>
    let c := cycles + 1
    if max_cycles ≤ c then acc
    else agent_run_capped_go max_cycles fuel c (acc ++ [c])

/-- `run(max_cycles)` with the cap set: `cycles` starts at 0 (line 199). -/
def agent_run_capped (max_cycles fuel : Nat) : List Nat :=
  agent_run_capped_go max_cycles fuel 0 []

/-- The post-generation guard of one loop iteration (line 223):
`if self.config.enable_twitter_post_generation and now >= next_post:` —
no readiness check of the LLM manager appears in it. -/
def post_generation_runs (enable_twitter_post_generation : Bool)
    (now next_post : Rat) : Bool :=
  enable_twitter_post_generation && decide (next_post ≤ now)

/-- The guard as the spec states it: "if `now >= next_post_time` and
post-generation is enabled and the LLM manager is ready".  Written from
the spec's words, to be compared with `post_generation_runs` above. -/
def post_generation_runs_spec (enable_twitter_post_generation : Bool)
    (now next_post : Rat) (llm_ready : Bool) : Bool :=
  enable_twitter_post_generation && decide (next_post ≤ now) && llm_ready

/-- The rescheduling of `next_post` (line 356): when the guard fired,
`next_post = now + random.uniform(post_interval_min, post_interval_max)`
with `now` read at the top of the iteration; otherwise unchanged.  `u` is
the value `random.uniform` returned. -/
def next_post_after (enable_twitter_post_generation : Bool)
    (now next_post u : Rat) : Rat :=
  if post_generation_runs enable_twitter_post_generation now next_post then now + u
  else next_post

/-! ## Claims about the action dispatcher -/

/-- C3: for every supported action and every tweet id not yet interacted
with, dispatching twice in succession with `conversation=false` invokes
the external action exactly once — the first call performs one external
call, records the id in the ledger and returns true; the second call
returns false, performs no external call and leaves the ledger
unchanged. -/
theorem claim_C3 (interacted : List String) (action tweet_id : String)
    (text media : Option String)
    (hact : action ∈ SUPPORTED_ACTIONS)
    (hnew : has_interacted interacted tweet_id = false) :
    (dispatch interacted action tweet_id text media false).ok = true ∧
    (dispatch interacted action tweet_id text media false).calls.length = 1 ∧
    has_interacted (dispatch interacted action tweet_id text media false).store
      tweet_id = true ∧
    dispatch (dispatch interacted action tweet_id text media false).store
        action tweet_id text media false
      = { store := (dispatch interacted action tweet_id text media false).store,
          calls := [], ok := false } := by
  have hmem : action = "QUOTE_TWEET" ∨ action = "REPLY" ∨ action = "LIKE" ∨
      action = "RETWEET" := by
    simpa [SUPPORTED_ACTIONS] using hact
  rcases hmem with rfl | rfl | rfl | rfl <;>
    simp [dispatch, am_quote_tweet, am_reply, am_like, am_retweet,
      should_interact, record_interaction, add_interaction, hnew,
      has_interacted, Except.toOption] <;>
    simp [has_interacted] at hnew <;>
    simp [hnew]

/-- Closed witness for C3 at a concrete ledger and action. -/
theorem claim_C3_witness :
    ("LIKE" ∈ SUPPORTED_ACTIONS ∧ has_interacted ["9"] "1" = false) ∧
    (dispatch ["9"] "LIKE" "1" none none false).ok = true ∧
    (dispatch ["9"] "LIKE" "1" none none false).calls.length = 1 ∧
    has_interacted (dispatch ["9"] "LIKE" "1" none none false).store "1" = true ∧
    dispatch (dispatch ["9"] "LIKE" "1" none none false).store
        "LIKE" "1" none none false
      = { store := (dispatch ["9"] "LIKE" "1" none none false).store,
          calls := [], ok := false } :=
  ⟨⟨by decide, by decide⟩,
    claim_C3 ["9"] "LIKE" "1" none none (by decide) (by decide)⟩

/-- C4 (amended): with the `conversation` override set and the id already
in the ledger, only `REPLY` performs the external action and returns true;
`dispatch` does not forward the flag to `QUOTE_TWEET`, `LIKE` or
`RETWEET`, so those return false and perform no external call. -/
theorem claim_C4_amended (interacted : List String) (tweet_id : String)
    (text media : Option String)
    (hold : has_interacted interacted tweet_id = true) :
    dispatch interacted "REPLY" tweet_id text media true
      = { store := interacted, calls := [ExtCall.reply tweet_id text], ok := true } ∧
    dispatch interacted "QUOTE_TWEET" tweet_id text media true
      = { store := interacted, calls := [], ok := false } ∧
    dispatch interacted "LIKE" tweet_id text media true
      = { store := interacted, calls := [], ok := false } ∧
    dispatch interacted "RETWEET" tweet_id text media true
      = { store := interacted, calls := [], ok := false } := by
  refine ⟨?_, ?_, ?_, ?_⟩ <;>
    simp [dispatch, am_reply, am_quote_tweet, am_like, am_retweet,
      should_interact, record_interaction, add_interaction, hold,
      Except.toOption]

/-- Counterexample to C4 as stated: `LIKE` is a supported action and the
id is already in the ledger, yet `dispatch` with the override flag true
performs no external action and returns false. -/
theorem claim_C4_counterexample :
    "LIKE" ∈ SUPPORTED_ACTIONS ∧
    has_interacted ["1"] "1" = true ∧
    dispatch ["1"] "LIKE" "1" none none true
      = { store := ["1"], calls := [], ok := false } := by
  decide

/-- Closed witness for the amended C4. -/
theorem claim_C4_witness :
    has_interacted ["7"] "7" = true ∧
    dispatch ["7"] "REPLY" "7" (some "hi") none true
      = { store := ["7"], calls := [ExtCall.reply "7" (some "hi")], ok := true } ∧
    dispatch ["7"] "RETWEET" "7" (some "hi") none true
      = { store := ["7"], calls := [], ok := false } :=
  ⟨by decide,
    (claim_C4_amended ["7"] "7" (some "hi") none (by decide)).1,
    (claim_C4_amended ["7"] "7" (some "hi") none (by decide)).2.2.2⟩

/-! ## Claims about the vector-store manager construction -/

/-- C5: the class body of `VectorStoreFallbackManager` binds `__init__`
twice and Python keeps the later, no-op binding, so construction succeeds
for every argument but never assigns the `stores` attribute, and every
operation on the constructed object raises `AttributeError` for `stores`
instead of trying any backend or returning a sentinel. -/
theorem claim_C5 :
    python_effective_def vsfm_class_init_defs = some VSFMInit.abcStub ∧
    (∀ arg : StoreArg, vsfm_new arg = .ok { stores? := none }) ∧
    (∀ docs embeddings, vsfm_add_documents_method { stores? := none } docs embeddings
        = .error (.attributeError "stores")) ∧
    (∀ q, vsfm_search_method { stores? := none } q
        = .error (.attributeError "stores")) ∧
    (∀ documentId, vsfm_get_document_by_id_method { stores? := none } documentId
        = .error (.attributeError "stores")) ∧
    (∀ ids, vsfm_delete_documents_method { stores? := none } ids
        = .error (.attributeError "stores")) :=
  ⟨rfl, fun _ => rfl, fun _ _ => rfl, fun _ => rfl, fun _ => rfl, fun _ => rfl⟩

/-! ## Claims about persistence failure handling -/

/-- C10 (amended): a failing write in `InteractionStore.add_interaction`
propagates to the caller (the save path has no handler); a failing write
in `mark_media_as_used` is caught and logged, so the call returns
normally with the filename unrecorded — for the used-media log the claim
does not hold. -/
theorem claim_C10_amended :
    (∀ (interacted : List String) (tweet_id : String),
      has_interacted interacted tweet_id = false →
      add_interaction interacted tweet_id false = .error "IOError") ∧
    (∀ (filename : String) (log : List String),
      mark_media_as_used filename log true false = .ok log) := by
  constructor
  · intro interacted tweet_id h
    simp [add_interaction, h]
  · intro filename log
    rfl

/-- Counterexample to C10 as stated: a failing append to the used-media
log does not propagate — the call returns normally and nothing was
persisted. -/
theorem claim_C10_counterexample :
    mark_media_as_used "img.png" [] true false = .ok [] := rfl

/-- Closed witness for the amended C10. -/
theorem claim_C10_witness :
    has_interacted [] "t1" = false ∧
    add_interaction [] "t1" false = .error "IOError" ∧
    mark_media_as_used "a.png" ["b.png"] true false = .ok ["b.png"] :=
  ⟨by decide, claim_C10_amended.1 [] "t1" (by decide),
    claim_C10_amended.2 "a.png" ["b.png"]⟩

/-! ## Claims about the agent control loop -/

/-- C8: with a cycle cap N ≥ 1 the control loop terminates (the result is
the same for every sufficient fuel) and exactly the iterations numbered
1..N-1 get past the cap check to the task section — the cap check runs at
the top of an iteration, before any task in it. -/
theorem claim_C8 (N fuel : Nat) (h1 : 1 ≤ N) (hf : N ≤ fuel) :
    agent_run_capped N fuel = List.range' 1 (N - 1) ∧
    (agent_run_capped N fuel).length = N - 1 := by
  have go_eq : ∀ (f c : Nat) (acc : List Nat), c < N → N ≤ c + f →
      agent_run_capped_go N f c acc = acc ++ List.range' (c + 1) (N - c - 1) := by
    intro f
    induction f with
    | zero => intro c acc hc hle; omega
    | succ f ih =>
      intro c acc hc hle
      by_cases hbr : N ≤ c + 1
      · have hN : N = c + 1 := by omega
        simp [agent_run_capped_go, if_pos hbr, hN]
      · have hlt : c + 1 < N := by omega
        have hrw : N - c - 1 = (N - (c + 1) - 1) + 1 := by omega
        rw [agent_run_capped_go]
        simp only [if_neg hbr]
        rw [ih (c + 1) (acc ++ [c + 1]) hlt (by omega), hrw, List.range'_succ]
        simp
  have hmain : agent_run_capped N fuel = List.range' 1 (N - 1) := by
    have := go_eq fuel 0 [] (by omega) (by omega)
    simpa [agent_run_capped] using this
  exact ⟨hmain, by rw [hmain]; simp⟩

/-- Closed witness for C8: a cap of 4 executes exactly the three
iterations 1, 2, 3 (matching `test_agent_schedule_media_and_action`). -/
theorem claim_C8_witness :
    1 ≤ 4 ∧ 4 ≤ 10 ∧ agent_run_capped 4 10 = [1, 2, 3] ∧
    (agent_run_capped 4 10).length = 3 :=
  ⟨by decide, by decide,
    by rw [(claim_C8 4 10 (by decide) (by decide)).1]; decide,
    (claim_C8 4 10 (by decide) (by decide)).2⟩

/-- C9 (amended): the post-generation guard fires iff post generation is
enabled and `now` has reached `next_post` — the LLM manager's readiness is
not part of the guard (it differs from the spec's guard exactly by the
readiness conjunct) — and when it fires, `next_post` is rescheduled to
`now + u` for the drawn `u`, which lies in
`[now + post_interval_min, now + post_interval_max]`. -/
theorem claim_C9_amended (enable : Bool) (now next_post u pmin pmax : Rat)
    (hu1 : pmin ≤ u) (hu2 : u ≤ pmax) :
    (post_generation_runs enable now next_post = true ↔
      (enable = true ∧ next_post ≤ now)) ∧
    (∀ ready : Bool, post_generation_runs_spec enable now next_post ready
        = (post_generation_runs enable now next_post && ready)) ∧
    (post_generation_runs enable now next_post = true →
      next_post_after enable now next_post u = now + u ∧
      now + pmin ≤ next_post_after enable now next_post u ∧
      next_post_after enable now next_post u ≤ now + pmax) ∧
    (post_generation_runs enable now next_post = false →
      next_post_after enable now next_post u = next_post) := by
  refine ⟨?_, ?_, ?_, ?_⟩
  · simp [post_generation_runs]
  · intro ready
    simp [post_generation_runs_spec, post_generation_runs]
  · intro hrun
    refine ⟨by simp [next_post_after, hrun], ?_, ?_⟩ <;>
      simp [next_post_after, hrun] <;> linarith
  · intro hrun
    simp [next_post_after, hrun]

/-- Counterexample to C9 as stated: post generation enabled and
`next_post` due, but the LLM manager has no providers (`is_enabled` is
false): the code's guard still fires, while the claimed guard ("only
when ... the LLM fallback manager is ready") does not. -/
theorem claim_C9_counterexample :
    llm_is_enabled [] = false ∧
    post_generation_runs true 1 0 = true ∧
    post_generation_runs_spec true 1 0 (llm_is_enabled []) = false := by
  refine ⟨rfl, ?_, ?_⟩ <;>
    simp [post_generation_runs, post_generation_runs_spec, llm_is_enabled]

/-- Closed witness for the amended C9. -/
theorem claim_C9_witness :
    (1 : Rat) ≤ 2 ∧ (2 : Rat) ≤ 3 ∧
    post_generation_runs true 1 0 = true ∧
    next_post_after true 1 0 2 = 1 + 2 :=
  ⟨by norm_num, by norm_num,
    by simp [post_generation_runs],
    ((claim_C9_amended true 1 0 2 1 3 (by norm_num) (by norm_num)).2.2.1
      (by simp [post_generation_runs])).1⟩

/-! ## Claims about the fallback loops -/

/-- A provider whose call raises or returns `None` for this prompt — the
outcomes that make `generate_text` move on to the next provider. -/
def llm_gen_fails (p : LLMProvider) (prompt : String) : Prop :=
  p.inst.gen prompt = .raises ∨ p.inst.gen prompt = .retNone

/-- Same for `analyze_image`. -/
def llm_img_fails (p : LLMProvider) (image_path : String) : Prop :=
  p.inst.img image_path = .raises ∨ p.inst.img image_path = .retNone

/-- Same for `analyze_video`. -/
def llm_vid_fails (p : LLMProvider) (video_path : String) : Prop :=
  p.inst.vid video_path = .raises ∨ p.inst.vid video_path = .retNone

/-- A store whose `add_documents` raises or returns `None`. -/
def vadd_fails (s : VStore) (docs : List VDoc)
    (embeddings : Option (List (List Int))) : Prop :=
  s.inst.add docs embeddings = .raises ∨ s.inst.add docs embeddings = .retNone

/-- A store that contributes nothing to `search` for this query: it is
skipped by the type dispatch, raises, or returns `None`. -/
def vsearch_yields_no_result (s : VStore) (q : VQuery) : Prop :=
  vstore_skipped s q = true ∨ s.inst.search q = .raises ∨
    s.inst.search q = .retNone

/-- A store whose `get_document_by_id` raises or returns `None`. -/
def vget_fails (s : VStore) (documentId : String) : Prop :=
  s.inst.get documentId = .raises ∨ s.inst.get documentId = .retNone

/-- A store whose `delete_documents` raises or returns `False`. -/
def vdelete_fails (s : VStore) (ids : List String) : Prop :=
  s.inst.delete ids = .raises ∨ s.inst.delete ids = .ret false

/-- First-win shape of the `generate_text` loop: after a prefix of
failing providers, the first provider to return a value wins with exactly
that value and the loop stops. -/
lemma llm_generate_text_loop_first_win (prompt v : String) (p : LLMProvider) :
    ∀ ps1 ps2, (∀ q ∈ ps1, llm_gen_fails q prompt) →
      p.inst.gen prompt = .ret v →
      llm_generate_text_loop (ps1 ++ p :: ps2) prompt
        = (some v, ps1.map LLMProvider.name ++ [p.name])
  | [], ps2, _, hp => by simp [llm_generate_text_loop, hp]
  | q :: ps1, ps2, hfail, hp => by
    have hq := hfail q (List.mem_cons_self q ps1)
    have ih := llm_generate_text_loop_first_win prompt v p ps1 ps2
      (fun r hr => hfail r (List.mem_cons_of_mem q hr)) hp
    rcases hq with h | h <;> simp [llm_generate_text_loop, h, ih]

/-- First-win shape of the `analyze_image` loop. -/
lemma llm_analyze_image_loop_first_win (image_path v : String) (p : LLMProvider) :
    ∀ ps1 ps2, (∀ q ∈ ps1, llm_img_fails q image_path) →
      p.inst.img image_path = .ret v →
      llm_analyze_image_loop (ps1 ++ p :: ps2) image_path
        = (some v, ps1.map LLMProvider.name ++ [p.name])
  | [], ps2, _, hp => by simp [llm_analyze_image_loop, hp]
  | q :: ps1, ps2, hfail, hp => by
    have hq := hfail q (List.mem_cons_self q ps1)
    have ih := llm_analyze_image_loop_first_win image_path v p ps1 ps2
      (fun r hr => hfail r (List.mem_cons_of_mem q hr)) hp
    rcases hq with h | h <;> simp [llm_analyze_image_loop, h, ih]

/-- First-win shape of the `analyze_video` loop. -/
lemma llm_analyze_video_loop_first_win (video_path v : String) (p : LLMProvider) :
    ∀ ps1 ps2, (∀ q ∈ ps1, llm_vid_fails q video_path) →
      p.inst.vid video_path = .ret v →
      llm_analyze_video_loop (ps1 ++ p :: ps2) video_path
        = (some v, ps1.map LLMProvider.name ++ [p.name])
  | [], ps2, _, hp => by simp [llm_analyze_video_loop, hp]
  | q :: ps1, ps2, hfail, hp => by
    have hq := hfail q (List.mem_cons_self q ps1)
    have ih := llm_analyze_video_loop_first_win video_path v p ps1 ps2
      (fun r hr => hfail r (List.mem_cons_of_mem q hr)) hp
    rcases hq with h | h <;> simp [llm_analyze_video_loop, h, ih]

/-- A provider chain of the shape prefix-then-winner is nonempty, so the
empty-list short-circuit of the public methods does not fire. -/
lemma llm_chain_not_isEmpty (p : LLMProvider) (ps1 ps2 : List LLMProvider) :
    (ps1 ++ p :: ps2).isEmpty = false := by
  cases ps1 <;> rfl

/-- First-win shape of `add_documents`. -/
lemma vsm_add_documents_first_win (docs : List VDoc)
    (embeddings : Option (List (List Int))) (ids : List String) (s : VStore) :
    ∀ ss1 ss2, (∀ t ∈ ss1, vadd_fails t docs embeddings) →
      s.inst.add docs embeddings = .ret ids →
      vsm_add_documents (ss1 ++ s :: ss2) docs embeddings
        = (ids, ss1.map VStore.name ++ [s.name])
  | [], ss2, _, hs => by simp [vsm_add_documents, hs]
  | t :: ss1, ss2, hfail, hs => by
    have ht := hfail t (List.mem_cons_self t ss1)
    have ih := vsm_add_documents_first_win docs embeddings ids s ss1 ss2
      (fun r hr => hfail r (List.mem_cons_of_mem t hr)) hs
    rcases ht with h | h <;> simp [vsm_add_documents, h, ih]

/-- First-win shape of `search`: stores skipped by the type dispatch do
not appear among the invoked stores. -/
lemma vsm_search_first_win (q : VQuery) (docs : List VDoc) (s : VStore) :
    ∀ ss1 ss2, (∀ t ∈ ss1, vsearch_yields_no_result t q) →
      vstore_skipped s q = false → s.inst.search q = .ret docs →
      vsm_search (ss1 ++ s :: ss2) q
        = (docs, (ss1.filter fun t => !vstore_skipped t q).map VStore.name
            ++ [s.name])
  | [], ss2, _, hskip, hs => by simp [vsm_search, hskip, hs]
  | t :: ss1, ss2, hfail, hskip, hs => by
    have ih := vsm_search_first_win q docs s ss1 ss2
      (fun r hr => hfail r (List.mem_cons_of_mem t hr)) hskip hs
    by_cases hsk : vstore_skipped t q = true
    · simp [vsm_search, hsk, ih, List.filter_cons]
    · have hns : vstore_skipped t q = false := by
        simpa using hsk
      have ht := hfail t (List.mem_cons_self t ss1)
      rcases ht with h | h | h
      · exact absurd h hsk
      · simp [vsm_search, hns, h, ih, List.filter_cons]
      · simp [vsm_search, hns, h, ih, List.filter_cons]

/-- First-win shape of `get_document_by_id`. -/
lemma vsm_get_first_win (documentId : String) (d : VDoc) (s : VStore) :
    ∀ ss1 ss2, (∀ t ∈ ss1, vget_fails t documentId) →
      s.inst.get documentId = .ret d →
      vsm_get_document_by_id (ss1 ++ s :: ss2) documentId
        = (some d, ss1.map VStore.name ++ [s.name])
  | [], ss2, _, hs => by simp [vsm_get_document_by_id, hs]
  | t :: ss1, ss2, hfail, hs => by
    have ht := hfail t (List.mem_cons_self t ss1)
    have ih := vsm_get_first_win documentId d s ss1 ss2
      (fun r hr => hfail r (List.mem_cons_of_mem t hr)) hs
    rcases ht with h | h <;> simp [vsm_get_document_by_id, h, ih]

/-- First-win shape of `delete_documents`. -/
lemma vsm_delete_first_win (ids : List String) (s : VStore) :
    ∀ ss1 ss2, (∀ t ∈ ss1, vdelete_fails t ids) →
      s.inst.delete ids = .ret true →
      vsm_delete_documents (ss1 ++ s :: ss2) ids
        = (true, ss1.map VStore.name ++ [s.name])
  | [], ss2, _, hs => by simp [vsm_delete_documents, hs]
  | t :: ss1, ss2, hfail, hs => by
    have ht := hfail t (List.mem_cons_self t ss1)
    have ih := vsm_delete_first_win ids s ss1 ss2
      (fun r hr => hfail r (List.mem_cons_of_mem t hr)) hs
    rcases ht with h | h <;> simp [vsm_delete_documents, h, ih]

/-- Construction keeps configuration order: the names of the constructed
providers form an order-preserving sublist of the configured names. -/
lemma llm_init_names_sublist :
    ∀ cfgs : List LLMCfgItem,
      List.Sublist ((llm_init cfgs).map LLMProvider.name)
        (cfgs.map llm_cfg_name)
  | [] => List.Sublist.refl []
  | item :: cfgs => by
    have ih := llm_init_names_sublist cfgs
    rcases item with ⟨ptype, cname, enabled, ctor⟩
    cases enabled
    · exact List.Sublist.cons _ (by simpa [llm_init] using ih)
    · cases ptype with
      | none => exact List.Sublist.cons _ (by simpa [llm_init] using ih)
      | some t =>
        by_cases hk : llm_known_type t
        · cases ctor with
          | none =>
            exact List.Sublist.cons _ (by simpa [llm_init, hk] using ih)
          | some inst =>
            have : llm_cfg_name ⟨some t, cname, true, some inst⟩
                = cname.getD t := by
              simp [llm_cfg_name]
            refine List.Sublist.trans ?_ (List.Sublist.refl _)
            simpa [llm_init, hk, llm_cfg_name] using
              List.Sublist.cons₂ (cname.getD t) (by simpa [llm_init] using ih)
        · exact List.Sublist.cons _ (by simpa [llm_init, hk] using ih)

/-- Fixture provider "A": every call raises. -/
def provA : LLMProvider :=
  ⟨"A", ⟨fun _ => .raises, fun _ => .raises, fun _ => .raises⟩⟩

/-- Fixture provider "B": every call returns `None` (the sentinel). -/
def provB : LLMProvider :=
  ⟨"B", ⟨fun _ => .retNone, fun _ => .retNone, fun _ => .retNone⟩⟩

/-- Fixture provider "C": every call returns the value "V". -/
def provC : LLMProvider :=
  ⟨"C", ⟨fun _ => .ret "V", fun _ => .ret "V", fun _ => .ret "V"⟩⟩

/-- Fixture provider "D": every call returns the value "W"; it sits after
the winner and must never be attempted. -/
def provD : LLMProvider :=
  ⟨"D", ⟨fun _ => .ret "W", fun _ => .ret "W", fun _ => .ret "W"⟩⟩

/-- Fixture store "A": every call raises. -/
def storeRaises : VStore :=
  ⟨"A", "remote",
    ⟨fun _ _ => .raises, fun _ => .raises, fun _ => .raises, fun _ => .raises⟩⟩

/-- Fixture store "B": every call returns its per-operation sentinel
(`None`, or `False` for delete). -/
def storeNone : VStore :=
  ⟨"B", "remote",
    ⟨fun _ _ => .retNone, fun _ => .retNone, fun _ => .retNone,
      fun _ => .ret false⟩⟩

/-- Fixture store "A" for the C1 counterexample: `search` returns the
empty list. -/
def storeEmpty : VStore :=
  ⟨"A", "remote",
    ⟨fun _ _ => .ret [], fun _ => .ret [], fun _ => .raises, fun _ => .ret true⟩⟩

/-- Fixture store "B" for the C1 counterexample: `search` returns one
document. -/
def storeDoc : VStore :=
  ⟨"B", "remote",
    ⟨fun _ _ => .ret ["d1"], fun _ => .ret [⟨"d1", "t1"⟩], fun _ => .raises,
      fun _ => .ret true⟩⟩

/-- C1 (amended): every fallback operation tries its backends strictly in
configuration order; a backend that raises or returns `None` (for
`delete_documents`: `False`) is logged and the next tried; the first
backend to return a non-`None` (non-`False`) result — an empty string or
empty list included — has exactly that result returned unmodified, with
no later backend attempted; `search` additionally skips, without
invoking, a `'local'` store handed an embedding query; and construction
preserves configuration order. -/
theorem claim_C1_amended :
    (∀ (ps1 ps2 : List LLMProvider) (p : LLMProvider) (prompt v : String),
      (∀ q ∈ ps1, llm_gen_fails q prompt) → p.inst.gen prompt = .ret v →
      llm_generate_text (ps1 ++ p :: ps2) prompt
        = (some v, ps1.map LLMProvider.name ++ [p.name])) ∧
    (∀ (ps1 ps2 : List LLMProvider) (p : LLMProvider) (image_path v : String),
      (∀ q ∈ ps1, llm_img_fails q image_path) →
      p.inst.img image_path = .ret v →
      llm_analyze_image (ps1 ++ p :: ps2) image_path
        = (some v, ps1.map LLMProvider.name ++ [p.name])) ∧
    (∀ (ps1 ps2 : List LLMProvider) (p : LLMProvider) (video_path v : String),
      (∀ q ∈ ps1, llm_vid_fails q video_path) →
      p.inst.vid video_path = .ret v →
      llm_analyze_video (ps1 ++ p :: ps2) video_path
        = (some v, ps1.map LLMProvider.name ++ [p.name])) ∧
    (∀ (ss1 ss2 : List VStore) (s : VStore) (docs : List VDoc)
        (embeddings : Option (List (List Int))) (ids : List String),
      (∀ t ∈ ss1, vadd_fails t docs embeddings) →
      s.inst.add docs embeddings = .ret ids →
      vsm_add_documents (ss1 ++ s :: ss2) docs embeddings
        = (ids, ss1.map VStore.name ++ [s.name])) ∧
    (∀ (ss1 ss2 : List VStore) (s : VStore) (q : VQuery) (docs : List VDoc),
      (∀ t ∈ ss1, vsearch_yields_no_result t q) →
      vstore_skipped s q = false → s.inst.search q = .ret docs →
      vsm_search (ss1 ++ s :: ss2) q
        = (docs, (ss1.filter fun t => !vstore_skipped t q).map VStore.name
            ++ [s.name])) ∧
    (∀ (ss1 ss2 : List VStore) (s : VStore) (documentId : String) (d : VDoc),
      (∀ t ∈ ss1, vget_fails t documentId) →
      s.inst.get documentId = .ret d →
      vsm_get_document_by_id (ss1 ++ s :: ss2) documentId
        = (some d, ss1.map VStore.name ++ [s.name])) ∧
    (∀ (ss1 ss2 : List VStore) (s : VStore) (ids : List String),
      (∀ t ∈ ss1, vdelete_fails t ids) →
      s.inst.delete ids = .ret true →
      vsm_delete_documents (ss1 ++ s :: ss2) ids
        = (true, ss1.map VStore.name ++ [s.name])) ∧
    (∀ cfgs : List LLMCfgItem,
      List.Sublist ((llm_init cfgs).map LLMProvider.name)
        (cfgs.map llm_cfg_name)) := by
  refine ⟨?_, ?_, ?_, ?_, ?_, ?_, ?_, llm_init_names_sublist⟩
  · intro ps1 ps2 p prompt v hfail hp
    have h := llm_generate_text_loop_first_win prompt v p ps1 ps2 hfail hp
    simp [llm_generate_text, llm_chain_not_isEmpty, h]
  · intro ps1 ps2 p image_path v hfail hp
    have h := llm_analyze_image_loop_first_win image_path v p ps1 ps2 hfail hp
    simp [llm_analyze_image, llm_chain_not_isEmpty, h]
  · intro ps1 ps2 p video_path v hfail hp
    have h := llm_analyze_video_loop_first_win video_path v p ps1 ps2 hfail hp
    simp [llm_analyze_video, llm_chain_not_isEmpty, h]
  · intro ss1 ss2 s docs embeddings ids hfail hs
    exact vsm_add_documents_first_win docs embeddings ids s ss1 ss2 hfail hs
  · intro ss1 ss2 s q docs hfail hskip hs
    exact vsm_search_first_win q docs s ss1 ss2 hfail hskip hs
  · intro ss1 ss2 s documentId d hfail hs
    exact vsm_get_first_win documentId d s ss1 ss2 hfail hs
  · intro ss1 ss2 s ids hfail hs
    exact vsm_delete_first_win ids s ss1 ss2 hfail hs

/-- Counterexample to C1 as stated: store "A" returns the empty result
for `search` — listed by the claim among the sentinels — yet the manager
returns that empty list immediately with store "B" never attempted,
although "B" alone would return a document. -/
theorem claim_C1_counterexample :
    vsm_search [storeEmpty, storeDoc] (.qtext "q") = ([], ["A"]) ∧
    vsm_search [storeDoc] (.qtext "q") = ([⟨"d1", "t1"⟩], ["B"]) := by
  exact ⟨rfl, rfl⟩

/-- Closed witness for the amended C1: the spec's three-backend scenario
[A raises, B sentinel, C value V, D value W]. -/
theorem claim_C1_witness :
    (∀ q ∈ [provA, provB], llm_gen_fails q "p") ∧
    provC.inst.gen "p" = .ret "V" ∧
    llm_generate_text [provA, provB, provC, provD] "p"
      = (some "V", ["A", "B", "C"]) := by
  have hfails : ∀ q ∈ [provA, provB], llm_gen_fails q "p" := by
    intro q hq
    simp only [List.mem_cons, List.not_mem_nil, or_false] at hq
    rcases hq with rfl | rfl
    · exact Or.inl rfl
    · exact Or.inr rfl
  exact ⟨hfails, rfl,
    claim_C1_amended.1 [provA, provB] [provD] provC "p" "V" hfails rfl⟩

/-- C2: the LLM manager returns the sentinel without raising when every
provider raises or returns `None`; but the `VectorStoreFallbackManager`
that `XVioletAgent.__init__` constructs never gets a `stores` attribute
(the later stub `__init__` shadows the list-based one), so every one of
its operations raises `AttributeError` to the caller instead of returning
the sentinel — contradicting both the claim and the code's own comments,
which intend the list-based initializer to be the effective one. -/
theorem claim_C2_code_behavior :
    (∀ prompt, llm_generate_text [provA, provB] prompt = (none, ["A", "B"])) ∧
    (∀ image_path,
      llm_analyze_image [provA, provB] image_path = (none, ["A", "B"])) ∧
    (∀ video_path,
      llm_analyze_video [provA, provB] video_path = (none, ["A", "B"])) ∧
    (∀ q, vsm_search [storeRaises, storeNone] q = ([], ["A", "B"])) ∧
    (∀ docs embeddings,
      vsm_add_documents [storeRaises, storeNone] docs embeddings
        = ([], ["A", "B"])) ∧
    (∀ documentId,
      vsm_get_document_by_id [storeRaises, storeNone] documentId
        = (none, ["A", "B"])) ∧
    (∀ ids,
      vsm_delete_documents [storeRaises, storeNone] ids = (false, ["A", "B"])) ∧
    (∀ keys, vsfm_new (.managerDict keys) = .ok { stores? := none }) ∧
    (∀ q, vsfm_search_method { stores? := none } q
        = .error (.attributeError "stores")) :=
  ⟨fun _ => rfl, fun _ => rfl, fun _ => rfl, fun _ => rfl, fun _ _ => rfl,
    fun _ => rfl, fun _ => rfl, fun _ => rfl, fun _ => rfl⟩

/-! ## Claims about the content scheduler -/

/-- `random.choice` picks a member: `getD` at an index reduced modulo the
length stays in a nonempty list. -/
lemma getD_mod_mem {α : Type} (l : List α) (i : Nat) (d : α) (h : l ≠ []) :
    l.getD (i % l.length) d ∈ l := by
  have hlen : 0 < l.length := List.length_pos.mpr h
  have hlt : i % l.length < l.length := Nat.mod_lt _ hlen
  rw [List.getD_eq_getElem l d hlt]
  exact List.getElem_mem hlt

/-- Exhaustive description of one slot: it either leaves the state
unchanged, schedules a text-only post, or selects an unused media file —
and then either only records the selection (caption or scheduling
failed) or schedules the media post, marks the file used and bumps both
counters.  A media selection requires the media counter to be below its
cap. -/
lemma run_slot_spec (cfg : SchedConfig) (files : List MediaFile)
    (se : SlotEnv) (st : CycleState) :
    run_slot cfg files se st = st ∨
    (∃ t, run_slot cfg files se st
        = { st with
            scheduled_posts := st.scheduled_posts ++ [(t, none)],
            scheduled_in_this_cycle := st.scheduled_in_this_cycle + 1 }) ∨
    (∃ f t, f ∈ files ∧ is_media_used f.base st.used_media_set = false ∧
      st.media_scheduled_this_cycle < cfg.max_scheduled_media_tweets ∧
      (run_slot cfg files se st
          = { st with selected_media := st.selected_media ++ [f] } ∨
        run_slot cfg files se st
          = { st with
              selected_media := st.selected_media ++ [f],
              scheduled_posts := st.scheduled_posts ++ [(t, some f.path)],
              scheduled_in_this_cycle := st.scheduled_in_this_cycle + 1,
              used_media_set := st.used_media_set ++ [f.base],
              media_scheduled_this_cycle :=
                st.media_scheduled_this_cycle + 1 })) := by
  have text_branch :
      (match se.generate_text with
        | GenOutcome.text s => some s
        | GenOutcome.noText => none
        | GenOutcome.raises => (none : Option String)) = none ∨
      ∃ s, se.generate_text = .text s ∧
        (match se.generate_text with
          | GenOutcome.text s => some s
          | GenOutcome.noText => none
          | GenOutcome.raises => (none : Option String)) = some s := by
    rcases se.generate_text with _ | _ | s
    · exact Or.inl rfl
    · exact Or.inl rfl
    · exact Or.inr ⟨s, rfl, rfl⟩
  unfold run_slot
  by_cases h1 : st.media_scheduled_this_cycle < cfg.max_scheduled_media_tweets ∧
      se.draw < cfg.media_tweet_probability
  · rw [if_pos h1]
    by_cases h2 : cfg.media_dir_ok = true
    · rw [if_pos h2]
      rcases hfl : files.filter
          (fun g => !is_media_used g.base st.used_media_set) with _ | ⟨f0, rest⟩
      · -- no unused media: fall through to the text-only attempt
        simp only [hfl]
        rcases text_branch with htc | ⟨s, hg, htc⟩
        · left
          simp [htc, truthy_text]
        · by_cases hs : (s == "") = true
          · left
            simp [htc, truthy_text, hs]
          · by_cases hok : se.schedule_ok = true
            · right; left
              exact ⟨s, by simp [htc, truthy_text, hs, hok]⟩
            · left
              simp [htc, truthy_text, hs, eq_false_of_ne_true hok]
      · -- a nonempty unused list: a file is selected
        simp only [hfl]
        have hmemf : (f0 :: rest).getD
            (se.choiceIdx % (f0 :: rest).length) f0 ∈ f0 :: rest :=
          getD_mod_mem _ _ _ (by simp)
        set f := (f0 :: rest).getD (se.choiceIdx % (f0 :: rest).length) f0
          with hfdef
        have hmem : f ∈ files.filter
            (fun g => !is_media_used g.base st.used_media_set) := by
          rw [hfl]; exact hmemf
        have hfin : f ∈ files := (List.mem_filter.mp hmem).1
        have hfu : is_media_used f.base st.used_media_set = false := by
          have := (List.mem_filter.mp hmem).2
          simpa using this
        rcases ha : se.analyze_image f.path with _ | _ | s
        · right; right
          exact ⟨f, "", hfin, hfu, h1.1, Or.inl (by simp [ha, truthy_text])⟩
        · right; right
          exact ⟨f, "", hfin, hfu, h1.1, Or.inl (by simp [ha, truthy_text])⟩
        · by_cases hs : (s == "") = true
          · right; right
            exact ⟨f, s, hfin, hfu, h1.1,
              Or.inl (by simp [ha, truthy_text, hs])⟩
          · by_cases hok : se.schedule_ok = true
            · right; right
              refine ⟨f, s, hfin, hfu, h1.1, Or.inr ?_⟩
              simp [ha, truthy_text, hs, hok]
            · right; right
              refine ⟨f, s, hfin, hfu, h1.1, Or.inl ?_⟩
              simp [ha, truthy_text, hs, eq_false_of_ne_true hok]
    · rw [if_neg h2]
      rcases text_branch with htc | ⟨s, hg, htc⟩
      · left
        simp [htc, truthy_text]
      · by_cases hs : (s == "") = true
        · left
          simp [htc, truthy_text, hs]
        · by_cases hok : se.schedule_ok = true
          · right; left
            exact ⟨s, by simp [htc, truthy_text, hs, hok]⟩
          · left
            simp [htc, truthy_text, hs, eq_false_of_ne_true hok]
  · rw [if_neg h1]
    rcases text_branch with htc | ⟨s, hg, htc⟩
    · left
      simp [htc, truthy_text]
    · by_cases hs : (s == "") = true
      · left
        simp [htc, truthy_text, hs]
      · by_cases hok : se.schedule_ok = true
        · right; left
          exact ⟨s, by simp [htc, truthy_text, hs, hok]⟩
        · left
          simp [htc, truthy_text, hs, eq_false_of_ne_true hok]

/-- One slot raises the total counter by at most one. -/
lemma run_slot_sched_le (cfg : SchedConfig) (files : List MediaFile)
    (se : SlotEnv) (st : CycleState) :
    (run_slot cfg files se st).scheduled_in_this_cycle
      ≤ st.scheduled_in_this_cycle + 1 := by
  rcases run_slot_spec cfg files se st with h | ⟨t, h⟩ | ⟨f, t, _, _, _, h | h⟩ <;>
    simp [h]

/-- One slot keeps the media counter within its cap. -/
lemma run_slot_media_bound (cfg : SchedConfig) (files : List MediaFile)
    (se : SlotEnv) (st : CycleState)
    (hK : st.media_scheduled_this_cycle ≤ cfg.max_scheduled_media_tweets) :
    (run_slot cfg files se st).media_scheduled_this_cycle
      ≤ cfg.max_scheduled_media_tweets := by
  rcases run_slot_spec cfg files se st with h | ⟨t, h⟩ | ⟨f, t, _, _, hlt, h | h⟩ <;>
    simp [h] <;> omega

/-- Once the media cap is reached, a slot schedules no further media
post. -/
lemma run_slot_media_stop (cfg : SchedConfig) (files : List MediaFile)
    (se : SlotEnv) (st : CycleState)
    (hK : cfg.max_scheduled_media_tweets ≤ st.media_scheduled_this_cycle) :
    (run_slot cfg files se st).media_scheduled_this_cycle
      = st.media_scheduled_this_cycle := by
  rcases run_slot_spec cfg files se st with h | ⟨t, h⟩ | ⟨f, t, _, _, hlt, h | h⟩
  all_goals simp [h]
  all_goals omega

/-- The used-media set only grows within a slot. -/
lemma run_slot_used_mono (cfg : SchedConfig) (files : List MediaFile)
    (se : SlotEnv) (st : CycleState) :
    ∀ b ∈ st.used_media_set, b ∈ (run_slot cfg files se st).used_media_set := by
  intro b hb
  rcases run_slot_spec cfg files se st with h | ⟨t, h⟩ | ⟨f, t, _, _, _, h | h⟩ <;>
    simp [h, List.mem_append, hb]

/-- Any file a slot newly selects had an unused basename at the slot's
start. -/
lemma run_slot_selected_fresh (cfg : SchedConfig) (files : List MediaFile)
    (se : SlotEnv) (st : CycleState) :
    ∀ f ∈ (run_slot cfg files se st).selected_media,
      f ∈ st.selected_media ∨ is_media_used f.base st.used_media_set = false := by
  intro f hf
  rcases run_slot_spec cfg files se st with h | ⟨t, h⟩ | ⟨g, t, _, hgu, _, h | h⟩
  · rw [h] at hf
    exact Or.inl hf
  · rw [h] at hf
    exact Or.inl hf
  · rw [h] at hf
    simp only [List.mem_append, List.mem_singleton] at hf
    rcases hf with hf | rfl
    · exact Or.inl hf
    · exact Or.inr hgu
  · rw [h] at hf
    simp only [List.mem_append, List.mem_singleton] at hf
    rcases hf with hf | rfl
    · exact Or.inl hf
    · exact Or.inr hgu

/-- The slot loop leaves the state unchanged once the total cap is
reached. -/
lemma run_slots_stop (cfg : SchedConfig) (env : SchedEnv) :
    ∀ (fuel idx : Nat) (st : CycleState),
      cfg.max_scheduled_tweets_total ≤ st.scheduled_in_this_cycle →
      run_slots cfg env fuel idx st = st
  | 0, _, _, _ => rfl
  | fuel + 1, idx, st, h => by
    unfold run_slots
    rw [if_pos h]

/-- The trace starts with the state the loop was entered with. -/
lemma run_slots_trace_head (cfg : SchedConfig) (env : SchedEnv) :
    ∀ (fuel idx : Nat) (st : CycleState),
      (run_slots_trace cfg env fuel idx st).head? = some st
  | 0, _, _ => rfl
  | fuel + 1, idx, st => by
    unfold run_slots_trace
    split
    · rfl
    · rfl

/-- Both counters stay within their caps at every state of the trace. -/
lemma run_slots_trace_bounds (cfg : SchedConfig) (env : SchedEnv) :
    ∀ (fuel idx : Nat) (st : CycleState),
      st.scheduled_in_this_cycle ≤ cfg.max_scheduled_tweets_total →
      st.media_scheduled_this_cycle ≤ cfg.max_scheduled_media_tweets →
      ∀ x ∈ run_slots_trace cfg env fuel idx st,
        x.scheduled_in_this_cycle ≤ cfg.max_scheduled_tweets_total ∧
        x.media_scheduled_this_cycle ≤ cfg.max_scheduled_media_tweets
  | 0, _, st => by
    intro hs hm x hx
    simp only [run_slots_trace, List.mem_singleton] at hx
    subst hx
    exact ⟨hs, hm⟩
  | fuel + 1, idx, st => by
    intro hs hm x hx
    unfold run_slots_trace at hx
    by_cases hbr : cfg.max_scheduled_tweets_total ≤ st.scheduled_in_this_cycle
    · rw [if_pos hbr] at hx
      simp only [List.mem_singleton] at hx
      subst hx
      exact ⟨hs, hm⟩
    · rw [if_neg hbr] at hx
      rcases List.mem_cons.mp hx with rfl | hx
      · exact ⟨hs, hm⟩
      · refine run_slots_trace_bounds cfg env fuel (idx + 1) _ ?_ ?_ x hx
        · have := run_slot_sched_le cfg env.available_media_files (env.slot idx) st
          omega
        · exact run_slot_media_bound cfg env.available_media_files
            (env.slot idx) st hm

/-- The used-media set only grows along the slot loop. -/
lemma run_slots_used_mono (cfg : SchedConfig) (env : SchedEnv) :
    ∀ (fuel idx : Nat) (st : CycleState),
      ∀ b ∈ st.used_media_set, b ∈ (run_slots cfg env fuel idx st).used_media_set
  | 0, _, _ => fun _ hb => hb
  | fuel + 1, idx, st => by
    intro b hb
    unfold run_slots
    by_cases hbr : cfg.max_scheduled_tweets_total ≤ st.scheduled_in_this_cycle
    · rw [if_pos hbr]
      exact hb
    · rw [if_neg hbr]
      exact run_slots_used_mono cfg env fuel (idx + 1) _ b
        (run_slot_used_mono cfg env.available_media_files (env.slot idx) st b hb)

/-- Once a basename is in the used-media set, no later slot of the loop
selects a file with that basename. -/
lemma run_slots_no_reuse (cfg : SchedConfig) (env : SchedEnv) :
    ∀ (fuel idx : Nat) (st : CycleState) (b : String), b ∈ st.used_media_set →
      ∀ f ∈ (run_slots cfg env fuel idx st).selected_media,
        f ∈ st.selected_media ∨ f.base ≠ b
  | 0, _, _, _ => fun _ _ hf => Or.inl hf
  | fuel + 1, idx, st, b => by
    intro hb f hf
    unfold run_slots at hf
    by_cases hbr : cfg.max_scheduled_tweets_total ≤ st.scheduled_in_this_cycle
    · rw [if_pos hbr] at hf
      exact Or.inl hf
    · rw [if_neg hbr] at hf
      have hb1 : b ∈ (run_slot cfg env.available_media_files (env.slot idx)
          st).used_media_set :=
        run_slot_used_mono cfg env.available_media_files (env.slot idx) st b hb
      rcases run_slots_no_reuse cfg env fuel (idx + 1) _ b hb1 f hf with hsel | hne
      · rcases run_slot_selected_fresh cfg env.available_media_files
            (env.slot idx) st f hsel with hsel0 | hfu
        · exact Or.inl hsel0
        · right
          intro hfb
          rw [hfb] at hfu
          simp [is_media_used, hb] at hfu
      · exact Or.inr hne

/-- C6: in every scheduling cycle the counters start at zero and at every
point satisfy their caps; once the media cap is reached a slot schedules
no further media post, and once the total cap is reached the loop makes
no further change at all. -/
theorem claim_C6 (cfg : SchedConfig) (env : SchedEnv) (used0 : List String) :
    (cycle_states cfg env used0).head?
      = some { scheduled_in_this_cycle := 0, media_scheduled_this_cycle := 0,
               used_media_set := used0, scheduled_posts := [],
               selected_media := [] } ∧
    (∀ st ∈ cycle_states cfg env used0,
        st.scheduled_in_this_cycle ≤ cfg.max_scheduled_tweets_total ∧
        st.media_scheduled_this_cycle ≤ cfg.max_scheduled_media_tweets) ∧
    (∀ (files : List MediaFile) (se : SlotEnv) (st : CycleState),
        cfg.max_scheduled_media_tweets ≤ st.media_scheduled_this_cycle →
        (run_slot cfg files se st).media_scheduled_this_cycle
          = st.media_scheduled_this_cycle) ∧
    (∀ (fuel idx : Nat) (st : CycleState),
        cfg.max_scheduled_tweets_total ≤ st.scheduled_in_this_cycle →
        run_slots cfg env fuel idx st = st) := by
  refine ⟨?_, ?_, ?_, ?_⟩
  · exact run_slots_trace_head cfg env cfg.max_scheduled_tweets_total 0 _
  · exact run_slots_trace_bounds cfg env cfg.max_scheduled_tweets_total 0 _
      (Nat.zero_le _) (Nat.zero_le _)
  · exact fun files se st h => run_slot_media_stop cfg files se st h
  · exact fun fuel idx st h => run_slots_stop cfg env fuel idx st h

/-- Closed witness for C6 at a concrete configuration and environment:
the zeroed entry state is in the trace and satisfies both caps. -/
theorem claim_C6_witness :
    (({ scheduled_in_this_cycle := 0, media_scheduled_this_cycle := 0,
        used_media_set := [], scheduled_posts := [],
        selected_media := [] } : CycleState)
      ∈ cycle_states ⟨1, 1, 1, true⟩
          ⟨[⟨"media/img.png", "img.png"⟩],
            fun _ => ⟨0, 0, fun _ => .text "caption", .text "hello", true⟩⟩ []) ∧
    (0 : Nat) ≤ 1 ∧ (0 : Nat) ≤ 1 := by
  refine ⟨?_, ?_, ?_⟩
  · decide
  · exact (((claim_C6 ⟨1, 1, 1, true⟩
      ⟨[⟨"media/img.png", "img.png"⟩],
        fun _ => ⟨0, 0, fun _ => .text "caption", .text "hello", true⟩⟩ []).2.1)
      { scheduled_in_this_cycle := 0, media_scheduled_this_cycle := 0,
        used_media_set := [], scheduled_posts := [], selected_media := [] }
      (by decide)).1
  · exact (((claim_C6 ⟨1, 1, 1, true⟩
      ⟨[⟨"media/img.png", "img.png"⟩],
        fun _ => ⟨0, 0, fun _ => .text "caption", .text "hello", true⟩⟩ []).2.1)
      { scheduled_in_this_cycle := 0, media_scheduled_this_cycle := 0,
        used_media_set := [], scheduled_posts := [], selected_media := [] }
      (by decide)).2

/-- A single remaining range iteration below the cap runs exactly one
slot. -/
lemma run_slots_one (cfg : SchedConfig) (env : SchedEnv) (idx : Nat)
    (st : CycleState)
    (h : ¬ cfg.max_scheduled_tweets_total ≤ st.scheduled_in_this_cycle) :
    run_slots cfg env 1 idx st
      = run_slot cfg env.available_media_files (env.slot idx) st := by
  unfold run_slots
  rw [if_neg h]
  rfl

/-- A slot that selects the single unused file and succeeds end-to-end:
the caption is generated, scheduling succeeds, the file is marked used
and both counters are bumped. -/
lemma run_slot_media_success (cfg : SchedConfig) (f0 : MediaFile)
    (se : SlotEnv) (st : CycleState) (t : String)
    (hm : st.media_scheduled_this_cycle < cfg.max_scheduled_media_tweets)
    (hd : se.draw < cfg.media_tweet_probability)
    (hdir : cfg.media_dir_ok = true)
    (hu : is_media_used f0.base st.used_media_set = false)
    (ha : se.analyze_image f0.path = .text t)
    (ht : (t == "") = false)
    (hok : se.schedule_ok = true) :
    run_slot cfg [f0] se st
      = { st with
          selected_media := st.selected_media ++ [f0],
          scheduled_posts := st.scheduled_posts ++ [(t, some f0.path)],
          scheduled_in_this_cycle := st.scheduled_in_this_cycle + 1,
          used_media_set := st.used_media_set ++ [f0.base],
          media_scheduled_this_cycle := st.media_scheduled_this_cycle + 1 } := by
  unfold run_slot
  rw [if_pos ⟨hm, hd⟩, if_pos hdir]
  have hfl : [f0].filter (fun g => !is_media_used g.base st.used_media_set)
      = [f0] := by
    simp [List.filter, hu]
  simp only [hfl]
  simp [Nat.mod_one, ha, truthy_text, ht, hok]

/-- C7: a basename in the used-media set is never selected by a later
slot of the same or a subsequent cycle (the set only grows, and every
fresh selection is filtered against it); in particular, with a media
probability of 1, a single unused file and a total cap of 1, the first
cycle schedules exactly that one media post and marks the file used, and
a second cycle from the resulting set never selects it again. -/
theorem claim_C7 :
    (∀ (cfg : SchedConfig) (files : List MediaFile) (se : SlotEnv)
        (st : CycleState),
      ∀ f ∈ (run_slot cfg files se st).selected_media,
        f ∈ st.selected_media ∨
          is_media_used f.base st.used_media_set = false) ∧
    (∀ (cfg : SchedConfig) (env : SchedEnv) (fuel idx : Nat) (st : CycleState),
      ∀ b ∈ st.used_media_set,
        b ∈ (run_slots cfg env fuel idx st).used_media_set) ∧
    (∀ (cfg : SchedConfig) (env : SchedEnv) (fuel idx : Nat) (st : CycleState)
        (b : String), b ∈ st.used_media_set →
      ∀ f ∈ (run_slots cfg env fuel idx st).selected_media,
        f ∈ st.selected_media ∨ f.base ≠ b) ∧
    (∀ (cfg : SchedConfig) (env : SchedEnv) (used0 : List String) (b : String),
      b ∈ used0 →
      ∀ f ∈ (run_schedule_cycle cfg env used0).selected_media, f.base ≠ b) ∧
    (∀ (cfg : SchedConfig) (env : SchedEnv) (f0 : MediaFile)
        (used0 : List String) (t : String),
      cfg.max_scheduled_tweets_total = 1 →
      1 ≤ cfg.max_scheduled_media_tweets →
      cfg.media_tweet_probability = 1 →
      cfg.media_dir_ok = true →
      env.available_media_files = [f0] →
      is_media_used f0.base used0 = false →
      (env.slot 0).draw < 1 →
      (env.slot 0).analyze_image f0.path = .text t →
      (t == "") = false →
      (env.slot 0).schedule_ok = true →
      run_schedule_cycle cfg env used0
        = { scheduled_in_this_cycle := 1, media_scheduled_this_cycle := 1,
            used_media_set := used0 ++ [f0.base],
            scheduled_posts := [(t, some f0.path)],
            selected_media := [f0] } ∧
      (∀ env2 : SchedEnv,
        ∀ f ∈ (run_schedule_cycle cfg env2 (used0 ++ [f0.base])).selected_media,
          f.base ≠ f0.base)) := by
  have hcycle : ∀ (cfg : SchedConfig) (env : SchedEnv) (used0 : List String)
      (b : String), b ∈ used0 →
      ∀ f ∈ (run_schedule_cycle cfg env used0).selected_media, f.base ≠ b := by
    intro cfg env used0 b hb f hf
    unfold run_schedule_cycle at hf
    rcases run_slots_no_reuse cfg env cfg.max_scheduled_tweets_total 0 _ b hb
        f hf with h | h
    · simp at h
    · exact h
  refine ⟨run_slot_selected_fresh, run_slots_used_mono, run_slots_no_reuse,
    hcycle, ?_⟩
  intro cfg env f0 used0 t h1 h2 h3 h4 h5 h6 h7 h8 h9 h10
  constructor
  · have hstep : run_schedule_cycle cfg env used0
        = run_slot cfg env.available_media_files (env.slot 0)
            { scheduled_in_this_cycle := 0, media_scheduled_this_cycle := 0,
              used_media_set := used0, scheduled_posts := [],
              selected_media := [] } := by
      unfold run_schedule_cycle
      rw [h1]
      exact run_slots_one cfg env 0 _ (by simp; omega)
    rw [hstep, h5,
      run_slot_media_success cfg f0 (env.slot 0) _ t (by exact h2)
        (by rw [h3]; exact h7) h4 h6 h8 h9 h10]
    simp
  · intro env2 f hf
    exact hcycle cfg env2 (used0 ++ [f0.base]) f0.base (by simp) f hf

/-- The concrete media file of the C7 witness scenario. -/
def fW : MediaFile := ⟨"media/img.png", "img.png"⟩

/-- The concrete configuration of the C7 witness scenario: one slot per
cycle, media probability 1. -/
def cfgW : SchedConfig := ⟨1, 2, 1, true⟩

/-- The concrete environment of the C7 witness scenario: one media file,
caption generation and scheduling succeed. -/
def envW : SchedEnv :=
  ⟨[fW], fun _ => ⟨0, 0, fun _ => .text "caption", .noText, true⟩⟩

/-- Closed witness for C7: the first cycle schedules exactly one
media-backed post and marks the file used; a second cycle from the
resulting set never selects it. -/
theorem claim_C7_witness :
    run_schedule_cycle cfgW envW []
      = { scheduled_in_this_cycle := 1, media_scheduled_this_cycle := 1,
          used_media_set := ["img.png"],
          scheduled_posts := [("caption", some "media/img.png")],
          selected_media := [fW] } ∧
    (∀ f ∈ (run_schedule_cycle cfgW envW ["img.png"]).selected_media,
        f.base ≠ "img.png") := by
  have h := claim_C7.2.2.2.2 cfgW envW fW [] "caption"
    rfl (by decide) rfl rfl rfl (by decide) (by decide) rfl (by decide) rfl
  exact ⟨h.1, h.2 envW⟩
